import Mathlib

/- Shallow embedding of the Pose2Sim calibration and reprojection core
   (src/Pose2Sim/calibration.py and
   src/Pose2Sim/Utilities/reproj_from_trc_calib.py).
   Numeric values are modelled as rational numbers; external vision-kernel
   calls (OpenCV) are abstracted as inputs, following the external
   GeometryKernel contract of the specification. -/

/-- A 3-vector of rationals. -/
structure Vec3 where
  x : ℚ
  y : ℚ
  z : ℚ
  deriving DecidableEq, Inhabited

/-- A 4-vector of rationals (homogeneous coordinates). -/
structure Vec4 where
  x : ℚ
  y : ℚ
  z : ℚ
  w : ℚ
  deriving DecidableEq, Inhabited

/-- A 3x3 matrix of rationals, rows (a b c / d e f / g h i). -/
structure Mat3 where
  a : ℚ
  b : ℚ
  c : ℚ
  d : ℚ
  e : ℚ
  f : ℚ
  g : ℚ
  h : ℚ
  i : ℚ
  deriving DecidableEq, Inhabited

/-- A 3x4 matrix of rationals given by its three rows. -/
structure Mat34 where
  r0 : Vec4
  r1 : Vec4
  r2 : Vec4
  deriving DecidableEq, Inhabited

/-- A 4x4 matrix of rationals given by its four rows. -/
structure Mat44 where
  r0 : Vec4
  r1 : Vec4
  r2 : Vec4
  r3 : Vec4
  deriving DecidableEq, Inhabited

/-- Dot product of two 4-vectors, the `P_cam[j].dot(Q)` of the source. -/
def dot4 (u v : Vec4) : ℚ :=
  u.x * v.x + u.y * v.y + u.z * v.z + u.w * v.w

/-- The identity 3x3 matrix. -/
def idMat3 : Mat3 := ⟨1, 0, 0, 0, 1, 0, 0, 0, 1⟩

/-- The block `Kh = np.block([K, np.zeros(3).reshape(3,1)])` of
calibration.py line 534 and reproj_from_trc_calib.py line 113. -/
def KhBlock (K : Mat3) : Mat34 :=
  ⟨⟨K.a, K.b, K.c, 0⟩, ⟨K.d, K.e, K.f, 0⟩, ⟨K.g, K.h, K.i, 0⟩⟩

/-- The block `H = np.block([[R, T.reshape(3,1)], [np.zeros(3), 1]])` of
calibration.py line 536 and reproj_from_trc_calib.py line 116. -/
def Hblock (R : Mat3) (T : Vec3) : Mat44 :=
  ⟨⟨R.a, R.b, R.c, T.x⟩, ⟨R.d, R.e, R.f, T.y⟩, ⟨R.g, R.h, R.i, T.z⟩,
   ⟨0, 0, 0, 1⟩⟩

/-- Column j of a 4x4 matrix, as a 4-vector. -/
def col0 (B : Mat44) : Vec4 := ⟨B.r0.x, B.r1.x, B.r2.x, B.r3.x⟩

/-- Column 1 of a 4x4 matrix. -/
def col1 (B : Mat44) : Vec4 := ⟨B.r0.y, B.r1.y, B.r2.y, B.r3.y⟩

/-- Column 2 of a 4x4 matrix. -/
def col2 (B : Mat44) : Vec4 := ⟨B.r0.z, B.r1.z, B.r2.z, B.r3.z⟩

/-- Column 3 of a 4x4 matrix. -/
def col3 (B : Mat44) : Vec4 := ⟨B.r0.w, B.r1.w, B.r2.w, B.r3.w⟩

/-- Matrix product of a 3x4 with a 4x4 matrix, the `Kh.dot(H)` of the
source. -/
def mul3444 (A : Mat34) (B : Mat44) : Mat34 :=
  ⟨⟨dot4 A.r0 (col0 B), dot4 A.r0 (col1 B), dot4 A.r0 (col2 B), dot4 A.r0 (col3 B)⟩,
   ⟨dot4 A.r1 (col0 B), dot4 A.r1 (col1 B), dot4 A.r1 (col2 B), dot4 A.r1 (col3 B)⟩,
   ⟨dot4 A.r2 (col0 B), dot4 A.r2 (col1 B), dot4 A.r2 (col2 B), dot4 A.r2 (col3 B)⟩⟩

/-- The per-camera projection matrix construction shared by
`computeP` (reproj_from_trc_calib.py lines 112-118) and
`calibrate_extrinsics` (calibration.py lines 534-537):
`P = Kh.dot(H)` with `Kh = [K | 0]` and `H = [[R, T], [0 0 0 1]]`.
The rotation matrix argument stands for the output of the external
`cv2.Rodrigues` call on the stored rotation vector. -/
def computeP_cam (K Rmat : Mat3) (T : Vec3) : Mat34 :=
  mul3444 (KhBlock K) (Hblock Rmat T)

/-- Embedding of `reprojection(P_all, Q)` (reproj_from_trc_calib.py lines
123-141): for each camera, `x = P[0].dot(Q) / P[2].dot(Q)` and
`y = P[1].dot(Q) / P[2].dot(Q)`.  The source appends to both lists in a
single loop over cameras; here the two output lists are produced by two
maps over the same camera list, which yields the same pair of lists. -/
def reprojection (P_all : List Mat34) (Q : Vec4) : List ℚ × List ℚ :=
  (P_all.map (fun P => dot4 P.r0 Q / dot4 P.r2 Q),
   P_all.map (fun P => dot4 P.r1 Q / dot4 P.r2 Q))

/-- Embedding of `yup2zup(Q)` (reproj_from_trc_calib.py lines 164-182):
the new column list takes, for each complete triplet of columns
(x, y, z), the columns (z, x, y); columns past the last complete
triplet are dropped, as `range(int(len(cols)/3))` does.  A column is
modelled as an opaque value (carrying its label and all its values),
since the source moves columns wholesale without touching their
contents. -/
def yup2zup {α : Type} : List α → List α
  | x :: y :: z :: rest => z :: x :: y :: yup2zup rest
  | _ => []

/-- The inverse triplet permutation of `yup2zup`: takes each complete
triplet of columns (a, b, c) to (b, c, a), so that it undoes the
(x, y, z) to (z, x, y) relabeling.  This function is the "inverse
permutation" named by the specification; the source file only contains
the forward direction. -/
def zup2yup {α : Type} : List α → List α
  | x :: y :: z :: rest => y :: z :: x :: zup2yup rest
  | _ => []

/-- The 4 distortion coefficients (k1, k2, p1, p2). -/
structure Dist4 where
  k1 : ℚ
  k2 : ℚ
  p1 : ℚ
  p2 : ℚ
  deriving DecidableEq, Inhabited

/-- One per-camera block of the persisted calibration file, exactly the
fields that `toml_write` prints (calibration.py lines 981-991). -/
structure CamBlock where
  name : String
  size : ℚ × ℚ
  matrix : Mat3
  distortions : Dist4
  rotation : Vec3
  translation : Vec3
  fisheye : Bool
  deriving DecidableEq, Inhabited

/-- The metadata block of the persisted calibration file. -/
structure MetaBlock where
  adjusted : Bool
  error : ℚ
  deriving DecidableEq, Inhabited

/-- The persisted calibration file: camera blocks in order, then the
metadata block. -/
structure CalibFile where
  cams : List CamBlock
  metadata : MetaBlock
  deriving DecidableEq, Inhabited

/-- Embedding of `toml_write(calib_path, C, S, D, K, R, T)`
(calibration.py lines 964-993).  The textual serialization is modelled
as exact: Python prints each float with `repr`, which round-trips
through the toml parser to the identical value.  Per camera `c` the
source writes name `C[c]`, size `S[c]`, the matrix
`[[K[c][0,0], 0.0, K[c][0,2]], [0.0, K[c][1,1], K[c][1,2]],
[0.0, 0.0, 1.0]]`, the four distortion coefficients, the 3-vector
rotation and translation, and `fisheye = false`; then a constant
metadata block `adjusted = false`, `error = 0.0`.  Note that the
function has no residual-error parameter at all. -/
def toml_write (C : List String) (S : List (ℚ × ℚ)) (D : List Dist4)
    (K : List Mat3) (R : List Vec3) (T : List Vec3) : CalibFile :=
  { cams := (List.range C.length).map (fun c =>
      { name := C.getD c ""
        size := S.getD c default
        matrix :=
          let k := K.getD c default
          ⟨k.a, 0, k.c, 0, k.e, k.f, 0, 0, 1⟩
        distortions := D.getD c default
        rotation := R.getD c default
        translation := T.getD c default
        fisheye := false })
    metadata := { adjusted := false, error := 0 } }

/-- A token of the digit-aware sort key: a maximal digit run read as a
number, or a maximal run of other characters lowercased. -/
inductive NatChunk where
  | num (n : ℕ)
  | txt (s : List Char)
  deriving DecidableEq

/-- Value of a digit run, most significant digit first. -/
def digitsVal (l : List Char) : ℕ :=
  l.foldl (fun acc c => acc * 10 + (c.toNat - 48)) 0

/-- Modelled from the spec: the sort key of the natural (digit-aware)
sort used by both vendor readers.  The implementation lives in
Pose2Sim.common (not under src); per the specification it splits the
name into digit runs, read as numbers, and remaining character runs,
lowercased.  Recursion is by fuel; every step consumes at least one
character, so fuel equal to the length of the list (as supplied by
`natKey`) never runs out. -/
def natKeyFuel : ℕ → List Char → List NatChunk
  | _, [] => []
  | 0, _ :: _ => []
  | fuel + 1, c :: cs =>
    if c.isDigit then
      NatChunk.num (digitsVal (c :: cs.takeWhile Char.isDigit))
        :: natKeyFuel fuel (cs.dropWhile Char.isDigit)
    else
      NatChunk.txt ((c :: cs.takeWhile (fun d => !d.isDigit)).map Char.toLower)
        :: natKeyFuel fuel (cs.dropWhile (fun d => !d.isDigit))

/-- The digit-aware sort key of a whole name. -/
def natKey (l : List Char) : List NatChunk := natKeyFuel l.length l

/-- Strict lexicographic comparison of character lists by code point. -/
def charListLtB : List Char → List Char → Bool
  | [], [] => false
  | [], _ :: _ => true
  | _ :: _, [] => false
  | a :: as, b :: bs => if a = b then charListLtB as bs else decide (a.toNat < b.toNat)

/-- Order on key tokens: numbers by value, text runs lexicographically,
numbers before text (a fixed total choice for heterogeneous keys). -/
def chunkLeB : NatChunk → NatChunk → Bool
  | NatChunk.num a, NatChunk.num b => decide (a ≤ b)
  | NatChunk.txt a, NatChunk.txt b => !charListLtB b a
  | NatChunk.num _, NatChunk.txt _ => true
  | NatChunk.txt _, NatChunk.num _ => false

/-- Lexicographic order on whole keys. -/
def keyLeB : List NatChunk → List NatChunk → Bool
  | [], _ => true
  | _ :: _, [] => false
  | a :: as, b :: bs => if a = b then keyLeB as bs else chunkLeB a b

/-- Modelled from the spec: `natural_sort` of Pose2Sim.common (not under
src) sorts strings in natural (digit-aware) ascending order of their
keys; e.g. cam_2, cam_10, cam_1 sorts to cam_1, cam_2, cam_10. -/
def natural_sort (l : List String) : List String :=
  l.insertionSort (fun s t => keyLeB (natKey s.data) (natKey t.data) = true)

/-- The camera reordering applied by both readers (calibration.py lines
185-188 and 309-312):
`C_vid = [C[v] for v in vid_id]`,
`C_vid_id = [C_vid.index(c) for c in natural_sort(C_vid)]`,
`C_id = [vid_id[c] for c in C_vid_id]`. -/
def reorderIds (C : List String) (vid_id : List ℕ) : List ℕ :=
  let C_vid := vid_id.map (fun v => C.getD v "")
  let C_vid_id := (natural_sort C_vid).map (fun c => C_vid.indexOf c)
  C_vid_id.map (fun c => vid_id.getD c 0)

/-- The camera models retained by `read_qca` (calibration.py line 141). -/
def videoModels : List String := ["Miqus Video", "Miqus Video UnderWater", "none"]

/-- One `<camera>` element of a Qualisys .qca.txt export, with the
attributes that `read_qca` reads: `avg-residual`, `serial`, `model`,
the `fov_video` bounds, the fixed-point intrinsic values, and the
`transform` rotation and translation.  Each camera element is assumed
to carry exactly one `fov_video`, one `intrinsic` and one `transform`
child, which is how the source aligns its parallel `findall` loops. -/
structure QcaCam where
  avg_residual : ℚ
  serial : String
  model : String
  fovLeft : ℚ
  fovRight : ℚ
  fovTop : ℚ
  fovBottom : ℚ
  rd1 : ℚ
  rd2 : ℚ
  td1 : ℚ
  td2 : ℚ
  fu : ℚ
  fv : ℚ
  cu : ℚ
  cv : ℚ
  tx : ℚ
  ty : ℚ
  tz : ℚ
  r11 : ℚ
  r12 : ℚ
  r13 : ℚ
  r21 : ℚ
  r22 : ℚ
  r23 : ℚ
  r31 : ℚ
  r32 : ℚ
  r33 : ℚ
  deriving DecidableEq, Inhabited

/-- The seven parallel per-camera lists returned by the vendor readers;
`ρ` is the rotation representation (3x3 matrices for the readers). -/
structure CalLists (ρ : Type) where
  ret : List ℚ
  C : List String
  S : List (ℚ × ℚ)
  D : List Dist4
  K : List Mat3
  R : List ρ
  T : List Vec3
  deriving DecidableEq

/-- The indices collected by `vid_id += [i]` under the model test of
`read_qca` (calibration.py lines 138-142), starting at index `i`. -/
def vidIdsFrom (i : ℕ) : List QcaCam → List ℕ
  | [] => []
  | cam :: rest =>
    if cam.model ∈ videoModels then i :: vidIdsFrom (i + 1) rest
    else vidIdsFrom (i + 1) rest

/-- Embedding of `read_qca(qca_path, binning_factor)` (calibration.py
lines 114-197).  Per camera: residual and serial from the camera tag;
image size `(right - left + 1) / binning` by `(bottom - top + 1) /
binning`; distortion and focal values divided by 64 and by the binning
factor, the principal point additionally shifted by the fov left and
top bounds; the 3x3 rotation transposed (stored by column in the file)
and the translation divided by 1000.  Cameras whose model is not a
video model are then dropped and the rest reordered by the natural
sort of their serials, the same index list `C_id` being applied to all
seven lists. -/
def read_qca (binning : ℚ) (cams : List QcaCam) : CalLists Mat3 :=
  let ret0 := cams.map (fun c => c.avg_residual)
  let C0 := cams.map (fun c => c.serial)
  let vid_id := vidIdsFrom 0 cams
  let S0 := cams.map (fun c =>
    ((c.fovRight - c.fovLeft + 1) / binning, (c.fovBottom - c.fovTop + 1) / binning))
  let D0 := cams.map (fun c =>
    (⟨c.rd1 / 64 / binning, c.rd2 / 64 / binning,
      c.td1 / 64 / binning, c.td2 / 64 / binning⟩ : Dist4))
  let K0 := cams.map (fun c =>
    (⟨c.fu / 64 / binning, 0, c.cu / 64 / binning - c.fovLeft,
      0, c.fv / 64 / binning, c.cv / 64 / binning - c.fovTop,
      0, 0, 1⟩ : Mat3))
  let R0 := cams.map (fun c =>
    (⟨c.r11, c.r21, c.r31, c.r12, c.r22, c.r32, c.r13, c.r23, c.r33⟩ : Mat3))
  let T0 := cams.map (fun c => (⟨c.tx / 1000, c.ty / 1000, c.tz / 1000⟩ : Vec3))
  let C_id := reorderIds C0 vid_id
  { ret := C_id.map (fun c => ret0.getD c 0)
    C := C_id.map (fun c => C0.getD c "")
    S := C_id.map (fun c => S0.getD c default)
    D := C_id.map (fun c => D0.getD c default)
    K := C_id.map (fun c => K0.getD c default)
    R := C_id.map (fun c => R0.getD c default)
    T := C_id.map (fun c => T0.getD c default) }

/-- Modelled from the spec: `quaternionToMatrix(q, scalarIndex)` of the
CoordinateConverter lives in Pose2Sim.common (not under src).  Standard
unit-quaternion-to-rotation-matrix conversion; `read_vicon` calls it
with the scalar part at index 3, so the quaternion is (x, y, z, w). -/
def quat2mat (q : Vec4) : Mat3 :=
  ⟨1 - 2 * (q.y ^ 2 + q.z ^ 2), 2 * (q.x * q.y - q.z * q.w), 2 * (q.x * q.z + q.y * q.w),
   2 * (q.x * q.y + q.z * q.w), 1 - 2 * (q.x ^ 2 + q.z ^ 2), 2 * (q.y * q.z - q.x * q.w),
   2 * (q.x * q.z - q.y * q.w), 2 * (q.y * q.z + q.x * q.w), 1 - 2 * (q.x ^ 2 + q.y ^ 2)⟩

/-- One `<Camera>` element of a Vicon .xcp export with the attributes
`read_vicon` reads.  The `model` attribute is carried because the
export has one and the specification refers to it; the reader itself
never looks at it (its model test is commented out, calibration.py
lines 282-283).  `radial2` holds entries [3:5] of `VICON_RADIAL2` when
that attribute is present; `radial` is the 2-entry `VICON_RADIAL`
fallback. -/
structure ViconCam where
  deviceid : String
  model : String
  sw : ℚ
  sh : ℚ
  world_error : ℚ
  radial2 : Option (ℚ × ℚ)
  radial : ℚ × ℚ
  focal : ℚ
  aspect : ℚ
  cu : ℚ
  cv : ℚ
  quat : Vec4
  px : ℚ
  py : ℚ
  pz : ℚ
  deriving DecidableEq, Inhabited

/-- Embedding of `read_vicon(vicon_path)` (calibration.py lines
255-320).  Per camera: device id, sensor size, world error; two
distortion coefficients padded with two zeros; `fv = fu / aspect`;
rotation from the orientation quaternion (scalar index 3) and
translation divided by 1000.  Every camera index enters `vid_id` (the
model filter is commented out in the source), and the natural-sort
index list `C_id` is applied to the C, S, D, K, R and T lists — but
not to `ret`, which the source leaves in document order (lines
313-318). -/
def read_vicon (cams : List ViconCam) : CalLists Mat3 :=
  let ret0 := cams.map (fun c => c.world_error)
  let C0 := cams.map (fun c => c.deviceid)
  let vid_id := List.range cams.length
  let S0 := cams.map (fun c => (c.sw, c.sh))
  let D0 := cams.map (fun c =>
    match c.radial2 with
    | some (d1, d2) => (⟨d1, d2, 0, 0⟩ : Dist4)
    | none => (⟨c.radial.1, c.radial.2, 0, 0⟩ : Dist4))
  let K0 := cams.map (fun c =>
    (⟨c.focal, 0, c.cu, 0, c.focal / c.aspect, c.cv, 0, 0, 1⟩ : Mat3))
  let R0 := cams.map (fun c => quat2mat c.quat)
  let T0 := cams.map (fun c => (⟨c.px / 1000, c.py / 1000, c.pz / 1000⟩ : Vec3))
  let C_id := reorderIds C0 vid_id
  { ret := ret0
    C := C_id.map (fun c => C0.getD c "")
    S := C_id.map (fun c => S0.getD c default)
    D := C_id.map (fun c => D0.getD c default)
    K := C_id.map (fun c => K0.getD c default)
    R := C_id.map (fun c => R0.getD c default)
    T := C_id.map (fun c => T0.getD c default) }

/-- Path join, modelling `os.path.join` with a fixed separator. -/
def joinPath (a b : String) : String := a ++ "/" ++ b

/-- The zero-padded camera number of `f'cam_{str(i+1).zfill(2)}'`. -/
def zfill2 (n : ℕ) : String :=
  if n < 10 then "0" ++ toString n else toString n

/-- An image (or extracted video frame) in an intrinsics camera folder,
together with the outcome of the external corner detection on it:
`findCorners` hands back an array of corners (the image is accepted)
or an empty list (the image is skipped). -/
structure ImgFile where
  path : String
  corners : Option (List (ℚ × ℚ))
  deriving DecidableEq, Inhabited

/-- One camera folder under the intrinsics root. -/
structure CamDirI where
  name : String
  files : List ImgFile
  deriving DecidableEq, Inhabited

/-- Outcome of the external `cv2.calibrateCamera` fit (vision kernel),
plus the image height and width read from the last image. -/
structure IntrinsicsFit where
  ret : ℚ
  mtx : Mat3
  dist : Dist4
  w : ℚ
  h : ℚ
  deriving Inhabited

/-- The per-camera loop of `calibrate_intrinsics` (calibration.py lines
412-466), over the camera folders in walk order, carrying the 1-based
camera counter.  Per camera: an empty file set raises the ValueError of
lines 422-424 naming the folder and the extension; otherwise the
accepted images are those where detection returned corners, fewer than
10 accepted images only appends the line-452 log message to the warning
list and the camera proceeds into the external fit; the camera then
contributes its fit results, a synthesized name and zero extrinsics.
The numeric path sort, the video-frame extraction (idempotent, on-disk)
and the parallel object-point accumulation feeding the external fit do
not affect these outputs and are left inside the abstracted kernel. -/
def intrinsicsLoop (calib_dir ext : String)
    (fit : List (List (ℚ × ℚ)) → IntrinsicsFit) :
    ℕ → List CamDirI → Except String (CalLists Vec3 × List String)
  | _, [] => Except.ok (⟨[], [], [], [], [], [], []⟩, [])
  | i, cam :: rest =>
    if cam.files = [] then
      Except.error ("The folder " ++ joinPath (joinPath calib_dir "intrinsics") cam.name
        ++ " does not exist or does not contain any files with extension ." ++ ext ++ ".")
    else
      let imgpoints := cam.files.filterMap (fun f => f.corners)
      let warns :=
        if imgpoints.length < 10 then
          ["Corners were detected only on " ++ toString imgpoints.length
            ++ " images for camera " ++ cam.name
            ++ ". Calibration of intrinsic parameters may not be accurate with fewer than 10 good images of the board."]
        else []
      let out := fit imgpoints
      match intrinsicsLoop calib_dir ext fit (i + 1) rest with
      | Except.error e => Except.error e
      | Except.ok (res, ws) =>
        Except.ok
          ({ ret := out.ret :: res.ret
             C := ("cam_" ++ zfill2 (i + 1)) :: res.C
             S := (out.w, out.h) :: res.S
             D := out.dist :: res.D
             K := out.mtx :: res.K
             R := (⟨0, 0, 0⟩ : Vec3) :: res.R
             T := (⟨0, 0, 0⟩ : Vec3) :: res.T }, warns ++ ws)

/-- Embedding of `calibrate_intrinsics(calib_dir, intrinsics_config_dict)`
(calibration.py lines 384-468).  `walk` is the result of
`next(os.walk(...))[1]` on the intrinsics root: `none` when the folder
is absent (`StopIteration`), in which case the function raises the
Exception of lines 399-403 naming the missing path; otherwise the
camera folders are processed in order.  The log stream is modelled as
the returned warning list. -/
def calibrate_intrinsics (calib_dir ext : String)
    (fit : List (List (ℚ × ℚ)) → IntrinsicsFit)
    (walk : Option (List CamDirI)) :
    Except String (CalLists Vec3 × List String) :=
  match walk with
  | none =>
    Except.error ("Error: No " ++ joinPath calib_dir "intrinsics" ++ " folder found.")
  | some cams => intrinsicsLoop calib_dir ext fit 0 cams

/-- Squared euclidean distance between two image points.  Modelled from
the spec: `euclidean_distance` lives in Pose2Sim.common (not under
src); the square keeps the value rational, the source reports the
square root of sums of these squares. -/
def sqDist (p q : ℚ × ℚ) : ℚ := (p.1 - q.1) ^ 2 + (p.2 - q.2) ^ 2

/-- The checkerboard object-point grid of calibration.py lines 516-518:
`objp[:,:2] = np.mgrid[0:a, 0:b].T.reshape(-1,2) * square`, rows
ordered with the second grid index outermost, third coordinate zero. -/
def gridObjp (a b : ℕ) (square : ℚ) : List Vec3 :=
  (List.range b).flatMap (fun j =>
    (List.range a).map (fun i => (⟨(i : ℚ) * square, (j : ℚ) * square, 0⟩ : Vec3)))

/-- The reprojection-residual accumulation of `calibrate_extrinsics`
(calibration.py lines 533-538 and 559-561): build
`P_cam = Kh.dot(H)` from the camera matrix and the solved pose, project
every object point by the two row ratios, and sum the squared
euclidean distances to the observed image points.  The source stores
`np.sqrt` of this sum (with no division by the number of points); the
sum itself is kept here so that the value stays rational. -/
def extrinsics_err_sq (mtx r_mat : Mat3) (t : Vec3)
    (objp : List Vec3) (imgp : List (ℚ × ℚ)) : ℚ :=
  let P_cam := computeP_cam mtx r_mat t
  let proj_obj := objp.map (fun o =>
    (dot4 P_cam.r0 ⟨o.x, o.y, o.z, 1⟩ / dot4 P_cam.r2 ⟨o.x, o.y, o.z, 1⟩,
     dot4 P_cam.r1 ⟨o.x, o.y, o.z, 1⟩ / dot4 P_cam.r2 ⟨o.x, o.y, o.z, 1⟩))
  ((proj_obj.zip imgp).map (fun pq => sqDist pq.1 pq.2)).sum

/-- The extrinsics board type selector. -/
inductive BoardType where
  | checkerboard
  | scene
  deriving DecidableEq, Inhabited

/-- One camera folder under the extrinsics root, together with the
outcomes of the external calls made on its first image: `found` is the
image-point list from `findCorners` (checkerboard) or from the
interactive clicker (scene), `none` standing for the empty return that
the source tests with `imgp == []`; `sceneObjp` is the confirmed
object-point list the clicker returns alongside; `r` and `t` are the
pose from the external `cv2.solvePnP`, and `r_mat` the external
`cv2.Rodrigues` matrix of `r`. -/
structure CamDirE where
  name : String
  files : List String
  found : Option (List (ℚ × ℚ))
  sceneObjp : List Vec3
  r : Vec3
  t : Vec3
  r_mat : Mat3
  deriving Inhabited

/-- The per-camera loop of `calibrate_extrinsics` (calibration.py lines
499-564), carrying the camera index used to select `K[i]`.  Per
camera: an empty file set raises the ValueError of lines 503-505
naming the folder and extension; a failed detection raises the
board-type-specific ValueError of lines 513-515 or 522-524; in scene
mode fewer than 10 reference points only appends the line-526 log
message; the camera then contributes the squared residual sum and the
solved pose.  Output assembly keeps (ret, R, T) plus the warning list;
the C, S, D, K lists are returned unchanged by the source. -/
def extrinsicsLoop (calib_dir ext : String) (btype : BoardType)
    (ca cb : ℕ) (square : ℚ) (object_coords_3d : List Vec3) (K : List Mat3) :
    ℕ → List CamDirE → Except String (List ℚ × List Vec3 × List Vec3 × List String)
  | _, [] => Except.ok ([], [], [], [])
  | i, cam :: rest =>
    if cam.files = [] then
      Except.error ("The folder " ++ joinPath (joinPath calib_dir "extrinsics") cam.name
        ++ " does not exist or does not contain any files with extension ." ++ ext ++ ".")
    else
      match cam.found with
      | none =>
        match btype with
        | BoardType.checkerboard =>
          Except.error "No corners found. Set show_detection_extrinsics to true to click corners by hand, or change extrinsic_board_type to scene"
        | BoardType.scene =>
          Except.error "No points clicked (or fewer than 6). Press C when the image is displayed, and then click on the image points corresponding to the object_coords_3d you measured and wrote down in the Config.toml file."
      | some imgp =>
        let objp :=
          match btype with
          | BoardType.checkerboard => gridObjp ca cb square
          | BoardType.scene => cam.sceneObjp
        let warns :=
          match btype with
          | BoardType.scene =>
            if objp.length < 10 then
              ["Only " ++ toString objp.length ++ " reference points for camera " ++ cam.name
                ++ ". Calibration of extrinsic parameters may not be accurate with fewer than 10 reference points, as spread out as possible."]
            else []
          | BoardType.checkerboard => []
        let ret_sq := extrinsics_err_sq (K.getD i default) cam.r_mat cam.t objp imgp
        match extrinsicsLoop calib_dir ext btype ca cb square object_coords_3d K (i + 1) rest with
        | Except.error e => Except.error e
        | Except.ok (rets, rs, ts, ws) =>
          Except.ok (ret_sq :: rets, cam.r :: rs, cam.t :: ts, warns ++ ws)

/-- Embedding of `calibrate_extrinsics(calib_dir, extrinsics_config_dict,
C, S, K, D)` (calibration.py lines 471-566).  `walk` is `none` when the
extrinsics root is absent, raising the Exception of lines 486-490
naming the missing path; otherwise the camera folders are processed in
order.  In scene mode the `object_coords_3d` configuration value is the
object list handed to the clicker, whose confirmed subset comes back in
each camera record. -/
def calibrate_extrinsics (calib_dir ext : String) (btype : BoardType)
    (ca cb : ℕ) (square : ℚ) (object_coords_3d : List Vec3) (K : List Mat3)
    (walk : Option (List CamDirE)) :
    Except String (List ℚ × List Vec3 × List Vec3 × List String) :=
  match walk with
  | none =>
    Except.error ("Error: No " ++ joinPath calib_dir "extrinsics" ++ " folder found.")
  | some cams => extrinsicsLoop calib_dir ext btype ca cb square object_coords_3d K 0 cams

/-- Embedding of the cached-intrinsics retrieval of `calib_board_fun`
(calibration.py lines 356-367): for every non-metadata block of a
loaded calibration file it takes name, size, matrix and distortions
verbatim from the parsed file, reports the residual as 0.0 and zero
extrinsics. -/
def calib_retrieve (f : CalibFile) : CalLists Vec3 :=
  { ret := f.cams.map (fun _ => 0)
    C := f.cams.map (fun cam => cam.name)
    S := f.cams.map (fun cam => cam.size)
    D := f.cams.map (fun cam => cam.distortions)
    K := f.cams.map (fun cam => cam.matrix)
    R := f.cams.map (fun _ => (⟨0, 0, 0⟩ : Vec3))
    T := f.cams.map (fun _ => (⟨0, 0, 0⟩ : Vec3)) }

/-- Embedding of `computeP(calib_file)` (reproj_from_trc_calib.py lines
95-120): one projection matrix per non-metadata block, from the parsed
matrix, rotation and translation; `rod` stands for the external
`cv2.Rodrigues` conversion of the stored rotation vector. -/
def computeP (f : CalibFile) (rod : Vec3 → Mat3) : List Mat34 :=
  f.cams.map (fun cam => computeP_cam cam.matrix (rod cam.rotation) cam.translation)

/-- The intrinsic-matrix shape of the data model (spec section 3):
(fx 0 cx / 0 fy cy / 0 0 1), upper-triangular with zero skew and the
(3,3) entry fixed at 1. -/
def isCanonicalK (k : Mat3) : Prop :=
  k.b = 0 ∧ k.d = 0 ∧ k.g = 0 ∧ k.h = 0 ∧ k.i = 1

/-- C10: `toml_write` always writes the metadata block with the constant
values `adjusted = false` and `error = 0.0`; it has no residual-error
parameter, so the computed per-camera residuals can never reach the
file and the metadata error field is 0.0 whatever the actual
calibration residuals were. -/
theorem toml_write_metadata_constant (C : List String) (S : List (ℚ × ℚ))
    (D : List Dist4) (K : List Mat3) (R T : List Vec3) :
    (toml_write C S D K R T).metadata = { adjusted := false, error := 0 } := rfl

/-- C8: every intrinsic-matrix block written by `toml_write` has its
(2,1), (3,1) and (3,2) entries equal to 0 and its (3,3) entry equal to
1, regardless of the in-memory values of those entries. -/
theorem toml_write_matrix_upper_triangular (C : List String) (S : List (ℚ × ℚ))
    (D : List Dist4) (K : List Mat3) (R T : List Vec3) :
    ∀ blk ∈ (toml_write C S D K R T).cams,
      blk.matrix.d = 0 ∧ blk.matrix.g = 0 ∧ blk.matrix.h = 0 ∧ blk.matrix.i = 1 := by
  intro blk hblk
  simp only [toml_write, List.mem_map] at hblk
  obtain ⟨c, _, rfl⟩ := hblk
  exact ⟨rfl, rfl, rfl, rfl⟩

/-- Witness for C8 at a concrete one-camera input. -/
theorem toml_write_matrix_upper_triangular_witness :
    ((toml_write ["c"] [(4, 3)] [⟨1, 2, 3, 4⟩] [⟨1, 2, 3, 4, 5, 6, 7, 8, 9⟩]
        [⟨1, 1, 1⟩] [⟨2, 2, 2⟩]).cams.getD 0 default).matrix.d = 0 ∧
    ((toml_write ["c"] [(4, 3)] [⟨1, 2, 3, 4⟩] [⟨1, 2, 3, 4, 5, 6, 7, 8, 9⟩]
        [⟨1, 1, 1⟩] [⟨2, 2, 2⟩]).cams.getD 0 default).matrix.g = 0 ∧
    ((toml_write ["c"] [(4, 3)] [⟨1, 2, 3, 4⟩] [⟨1, 2, 3, 4, 5, 6, 7, 8, 9⟩]
        [⟨1, 1, 1⟩] [⟨2, 2, 2⟩]).cams.getD 0 default).matrix.h = 0 ∧
    ((toml_write ["c"] [(4, 3)] [⟨1, 2, 3, 4⟩] [⟨1, 2, 3, 4, 5, 6, 7, 8, 9⟩]
        [⟨1, 1, 1⟩] [⟨2, 2, 2⟩]).cams.getD 0 default).matrix.i = 1 :=
  toml_write_matrix_upper_triangular ["c"] [(4, 3)] [⟨1, 2, 3, 4⟩]
    [⟨1, 2, 3, 4, 5, 6, 7, 8, 9⟩] [⟨1, 1, 1⟩] [⟨2, 2, 2⟩] _ (by decide)

/-- C5: for a pinhole camera with intrinsic matrix (fx 0 cx / 0 fy cy /
0 0 1), identity rotation and translation (0, 0, 5), the projection
matrix built by the `computeP` block product followed by `reprojection`
maps every point (0, 0, z) on the optical axis with z + 5 > 0 to the
principal point (cx, cy), within 1e-6 px (in fact exactly). -/
theorem reproject_optical_axis_hits_principal_point
    (fx fy cx cy z : ℚ) (hz : 0 < z + 5) :
    ∃ xp yp,
      reprojection [computeP_cam ⟨fx, 0, cx, 0, fy, cy, 0, 0, 1⟩ idMat3 ⟨0, 0, 5⟩]
          ⟨0, 0, z, 1⟩ = ([xp], [yp])
        ∧ |xp - cx| ≤ 1 / 1000000 ∧ |yp - cy| ≤ 1 / 1000000 := by
  have hne : z + 5 ≠ 0 := ne_of_gt hz
  refine ⟨cx, cy, ?_, by simp, by simp⟩
  simp only [reprojection, computeP_cam, mul3444, KhBlock, Hblock, idMat3, dot4,
    col0, col1, col2, col3, List.map_cons, List.map_nil, Prod.mk.injEq,
    List.cons.injEq, and_true]
  norm_num
  constructor <;> (rw [div_eq_iff (by linarith)]; ring)

/-- Witness for C5 at fx = 1000, fy = 1000, cx = 960, cy = 540, z = 0. -/
theorem reproject_optical_axis_hits_principal_point_witness :
    (0 : ℚ) < 0 + 5 ∧
    ∃ xp yp,
      reprojection [computeP_cam ⟨1000, 0, 960, 0, 1000, 540, 0, 0, 1⟩ idMat3 ⟨0, 0, 5⟩]
          ⟨0, 0, 0, 1⟩ = ([xp], [yp])
        ∧ |xp - 960| ≤ 1 / 1000000 ∧ |yp - 540| ≤ 1 / 1000000 :=
  ⟨by norm_num,
   reproject_optical_axis_hits_principal_point 1000 1000 960 540 0 (by norm_num)⟩

/-- Helper for C7: inverting the triplet relabeling, three columns at a
time. -/
theorem zup2yup_yup2zup {α : Type} :
    ∀ (n : ℕ) (l : List α), l.length = 3 * n → zup2yup (yup2zup l) = l := by
  intro n
  induction n with
  | zero =>
    intro l hl
    have : l = [] := List.eq_nil_of_length_eq_zero (by omega)
    subst this
    rfl
  | succ m ih =>
    intro l hl
    match l with
    | [] => simp at hl
    | [x] => simp at hl; omega
    | [x, y] => simp at hl; omega
    | x :: y :: z :: rest =>
      have hr : rest.length = 3 * m := by simp at hl; omega
      show zup2yup (z :: x :: y :: yup2zup rest) = x :: y :: z :: rest
      show x :: y :: z :: zup2yup (yup2zup rest) = x :: y :: z :: rest
      rw [ih rest hr]

/-- Helper for C7: the column at each position of each complete triplet
moves by the (x, y, z) to (z, x, y) relabeling, values untouched. -/
theorem yup2zup_triplet {α : Type} :
    ∀ (n : ℕ) (l : List α), l.length = 3 * n →
      ∀ i, i < n →
        (yup2zup l)[3 * i]? = l[3 * i + 2]? ∧
        (yup2zup l)[3 * i + 1]? = l[3 * i]? ∧
        (yup2zup l)[3 * i + 2]? = l[3 * i + 1]? := by
  intro n
  induction n with
  | zero => intro l hl i hi; omega
  | succ m ih =>
    intro l hl i hi
    match l with
    | [] => simp at hl
    | [x] => simp at hl; omega
    | [x, y] => simp at hl; omega
    | x :: y :: z :: rest =>
      have hr : rest.length = 3 * m := by simp at hl; omega
      show ((z :: x :: y :: yup2zup rest)[3 * i]? = (x :: y :: z :: rest)[3 * i + 2]?) ∧
        ((z :: x :: y :: yup2zup rest)[3 * i + 1]? = (x :: y :: z :: rest)[3 * i]?) ∧
        ((z :: x :: y :: yup2zup rest)[3 * i + 2]? = (x :: y :: z :: rest)[3 * i + 1]?)
      match i with
      | 0 => refine ⟨?_, ?_, ?_⟩ <;> simp
      | j + 1 =>
        have hj := ih rest hr j (by omega)
        have g1 : (z :: x :: y :: yup2zup rest)[3 * (j + 1)]? = (yup2zup rest)[3 * j]? := by
          rw [show 3 * (j + 1) = 3 * j + 1 + 1 + 1 from by ring]
          simp
        have g2 : (z :: x :: y :: yup2zup rest)[3 * (j + 1) + 1]? = (yup2zup rest)[3 * j + 1]? := by
          rw [show 3 * (j + 1) + 1 = 3 * j + 1 + 1 + 1 + 1 from by ring]
          simp
        have g3 : (z :: x :: y :: yup2zup rest)[3 * (j + 1) + 2]? = (yup2zup rest)[3 * j + 2]? := by
          rw [show 3 * (j + 1) + 2 = 3 * j + 2 + 1 + 1 + 1 from by ring]
          simp
        have g4 : (x :: y :: z :: rest)[3 * (j + 1) + 2]? = rest[3 * j + 2]? := by
          rw [show 3 * (j + 1) + 2 = 3 * j + 2 + 1 + 1 + 1 from by ring]
          simp
        have g5 : (x :: y :: z :: rest)[3 * (j + 1)]? = rest[3 * j]? := by
          rw [show 3 * (j + 1) = 3 * j + 1 + 1 + 1 from by ring]
          simp
        have g6 : (x :: y :: z :: rest)[3 * (j + 1) + 1]? = rest[3 * j + 1]? := by
          rw [show 3 * (j + 1) + 1 = 3 * j + 1 + 1 + 1 + 1 from by ring]
          simp
        exact ⟨g1.trans (hj.1.trans g4.symm), g2.trans (hj.2.1.trans g5.symm),
          g3.trans (hj.2.2.trans g6.symm)⟩

/-- C7: for every table of 3N columns, `yup2zup` relabels each
consecutive column triplet (x, y, z) to (z, x, y) without changing any
column (columns move wholesale, values included), and applying the
inverse triplet permutation afterwards restores the original column
ordering exactly — including the empty table (N = 0). -/
theorem yup2zup_permutes_and_inverts {α : Type} (l : List α) (n : ℕ)
    (h : l.length = 3 * n) :
    (∀ i, i < n →
        (yup2zup l)[3 * i]? = l[3 * i + 2]? ∧
        (yup2zup l)[3 * i + 1]? = l[3 * i]? ∧
        (yup2zup l)[3 * i + 2]? = l[3 * i + 1]?) ∧
      zup2yup (yup2zup l) = l :=
  ⟨fun i hi => yup2zup_triplet n l h i hi, zup2yup_yup2zup n l h⟩

/-- Witness for C7 on a concrete 6-column table (N = 2). -/
theorem yup2zup_permutes_and_inverts_witness :
    ([10, 11, 12, 20, 21, 22] : List ℕ).length = 3 * 2 ∧
    ((∀ i, i < 2 →
        (yup2zup [10, 11, 12, 20, 21, 22])[3 * i]? = [10, 11, 12, 20, 21, 22][3 * i + 2]? ∧
        (yup2zup [10, 11, 12, 20, 21, 22])[3 * i + 1]? = [10, 11, 12, 20, 21, 22][3 * i]? ∧
        (yup2zup [10, 11, 12, 20, 21, 22])[3 * i + 2]? = [10, 11, 12, 20, 21, 22][3 * i + 1]?) ∧
      zup2yup (yup2zup [10, 11, 12, 20, 21, 22]) = [10, 11, 12, 20, 21, 22]) :=
  ⟨by decide, yup2zup_permutes_and_inverts [10, 11, 12, 20, 21, 22] 2 (by decide)⟩

/-- C4: writing camera parameters whose intrinsic matrix has the
data-model shape with `toml_write` and reading the persisted block
back (as `calib_board_fun` and `computeP` do from the parsed file)
yields the identical matrix, distortion, rotation and translation
values — exactly, hence within the 1e-9 tolerance. -/
theorem toml_write_roundtrip (C : List String) (S : List (ℚ × ℚ))
    (D : List Dist4) (K : List Mat3) (R T : List Vec3) (j : ℕ)
    (hj : j < C.length) (hcan : isCanonicalK (K.getD j default)) :
    ∃ blk, (toml_write C S D K R T).cams[j]? = some blk
      ∧ blk.matrix = K.getD j default
      ∧ blk.distortions = D.getD j default
      ∧ blk.rotation = R.getD j default
      ∧ blk.translation = T.getD j default := by
  have hm : (⟨(K.getD j default).a, 0, (K.getD j default).c, 0, (K.getD j default).e,
      (K.getD j default).f, 0, 0, 1⟩ : Mat3) = K.getD j default := by
    obtain ⟨hb, hd, hg, hh, hi⟩ := hcan
    cases hK : K.getD j default with
    | mk a b c d e f g h i => simp_all
  refine ⟨⟨C.getD j "", S.getD j default,
    ⟨(K.getD j default).a, 0, (K.getD j default).c, 0, (K.getD j default).e,
     (K.getD j default).f, 0, 0, 1⟩,
    D.getD j default, R.getD j default, T.getD j default, false⟩, ?_, hm, rfl, rfl, rfl⟩
  simp [toml_write, List.getElem?_map, List.getElem?_range, hj]

/-- Witness for C4 at a concrete one-camera parameter list. -/
theorem toml_write_roundtrip_witness :
    0 < (["cam"] : List String).length ∧
    isCanonicalK (([(⟨1000, 0, 960, 0, 1000, 540, 0, 0, 1⟩ : Mat3)]).getD 0 default) ∧
    (∃ blk, (toml_write ["cam"] [(1920, 1080)] [⟨1, 2, 3, 4⟩]
        [⟨1000, 0, 960, 0, 1000, 540, 0, 0, 1⟩] [⟨1, 2, 3⟩] [⟨4, 5, 6⟩]).cams[0]? = some blk
      ∧ blk.matrix = ([(⟨1000, 0, 960, 0, 1000, 540, 0, 0, 1⟩ : Mat3)]).getD 0 default
      ∧ blk.distortions = ([(⟨1, 2, 3, 4⟩ : Dist4)]).getD 0 default
      ∧ blk.rotation = ([(⟨1, 2, 3⟩ : Vec3)]).getD 0 default
      ∧ blk.translation = ([(⟨4, 5, 6⟩ : Vec3)]).getD 0 default) :=
  ⟨by decide, ⟨rfl, rfl, rfl, rfl, rfl⟩,
   toml_write_roundtrip ["cam"] [(1920, 1080)] [⟨1, 2, 3, 4⟩]
     [⟨1000, 0, 960, 0, 1000, 540, 0, 0, 1⟩] [⟨1, 2, 3⟩] [⟨4, 5, 6⟩] 0
     (by decide) ⟨rfl, rfl, rfl, rfl, rfl⟩⟩

/-- C1: at four reference points whose reprojections each fall 1 px from
their observed image points, the residual that `calibrate_extrinsics`
reports is `sqrt` of the sum of squared distances, namely sqrt(4) = 2,
whereas the root-mean-square residual of the claim is
sqrt(4 / 4) = 1 — the source never divides by the number of points. -/
theorem extrinsics_error_sqrt_sum_not_rms :
    extrinsics_err_sq idMat3 idMat3 ⟨0, 0, 5⟩
        [⟨0, 0, 0⟩, ⟨0, 0, 0⟩, ⟨0, 0, 0⟩, ⟨0, 0, 0⟩]
        [(1, 0), (1, 0), (1, 0), (1, 0)] = 4
      ∧ Real.sqrt ((4 : ℚ) : ℝ) = 2
      ∧ Real.sqrt (((4 : ℚ) : ℝ) / 4) = 1
      ∧ (2 : ℝ) ≠ 1 := by
  refine ⟨?_, ?_, ?_, by norm_num⟩
  · norm_num [extrinsics_err_sq, computeP_cam, mul3444, KhBlock, Hblock, idMat3,
      dot4, col0, col1, col2, col3, sqDist, List.zip]
  · rw [show ((4 : ℚ) : ℝ) = (2 : ℝ) ^ 2 by norm_num]
    exact Real.sqrt_sq (by norm_num)
  · rw [show ((4 : ℚ) : ℝ) / 4 = (1 : ℝ) ^ 2 by norm_num]
    exact Real.sqrt_sq (by norm_num)

/-- C2: on a two-camera Vicon export listed in the order cam_2, cam_1,
`read_vicon` reorders names and sensor sizes into natural order but
returns the residual list still in document order: index 0 pairs the
name cam_1 (and the cam_1 sensor size) with the residual 2 that
belongs to cam_2.  The residual list is the one parallel list the
source does not reindex. -/
theorem read_vicon_residuals_not_reordered :
    (read_vicon
        [⟨"cam_2", "Vero v2.2", 20, 21, 2, none, (0, 0), 1000, 1, 8, 9, ⟨0, 0, 0, 1⟩, 0, 0, 0⟩,
         ⟨"cam_1", "Vero v2.2", 10, 11, 1, none, (0, 0), 1000, 1, 8, 9, ⟨0, 0, 0, 1⟩, 0, 0, 0⟩]).C
      = ["cam_1", "cam_2"]
    ∧ (read_vicon
        [⟨"cam_2", "Vero v2.2", 20, 21, 2, none, (0, 0), 1000, 1, 8, 9, ⟨0, 0, 0, 1⟩, 0, 0, 0⟩,
         ⟨"cam_1", "Vero v2.2", 10, 11, 1, none, (0, 0), 1000, 1, 8, 9, ⟨0, 0, 0, 1⟩, 0, 0, 0⟩]).S
      = [(10, 11), (20, 21)]
    ∧ (read_vicon
        [⟨"cam_2", "Vero v2.2", 20, 21, 2, none, (0, 0), 1000, 1, 8, 9, ⟨0, 0, 0, 1⟩, 0, 0, 0⟩,
         ⟨"cam_1", "Vero v2.2", 10, 11, 1, none, (0, 0), 1000, 1, 8, 9, ⟨0, 0, 0, 1⟩, 0, 0, 0⟩]).ret
      = [2, 1]
    ∧ (read_vicon
        [⟨"cam_2", "Vero v2.2", 20, 21, 2, none, (0, 0), 1000, 1, 8, 9, ⟨0, 0, 0, 1⟩, 0, 0, 0⟩,
         ⟨"cam_1", "Vero v2.2", 10, 11, 1, none, (0, 0), 1000, 1, 8, 9, ⟨0, 0, 0, 1⟩, 0, 0, 0⟩]).ret
      ≠ [1, 2] := by
  decide

/-- Helper: `vid_id` collects exactly one index per camera whose model
is a video model. -/
theorem vidIdsFrom_length (cams : List QcaCam) : ∀ i : ℕ,
    (vidIdsFrom i cams).length = cams.countP (fun c => decide (c.model ∈ videoModels)) := by
  induction cams with
  | nil => intro i; simp [vidIdsFrom]
  | cons c cs ih =>
    intro i
    by_cases hc : c.model ∈ videoModels
    · simp [vidIdsFrom, hc, List.countP_cons, ih (i + 1)]
    · simp [vidIdsFrom, hc, List.countP_cons, ih (i + 1)]

/-- Helper: the reordering index list has one entry per retained
camera. -/
theorem reorderIds_length (C : List String) (vid_id : List ℕ) :
    (reorderIds C vid_id).length = vid_id.length := by
  simp [reorderIds, natural_sort, List.length_insertionSort]

/-- C3 counterexample: a Vicon export with a single camera of a
non-video model; `read_vicon` keeps it, returning one camera instead
of the zero cameras the claim predicts (the model filter of the source
is commented out). -/
theorem read_vicon_retains_nonvideo_camera :
    ¬ ("Bonita 10" ∈ videoModels)
    ∧ (read_vicon
        [⟨"2108983", "Bonita 10", 1280, 1024, 1, none, (0, 0), 1000, 1, 8, 9,
          ⟨0, 0, 0, 1⟩, 0, 0, 0⟩]).C = ["2108983"] := by
  decide

/-- C3 amended: `read_qca` keeps exactly the cameras whose model is a
video model — on a two-camera Qualisys export with one Miqus Video and
one Oqus 300 it returns exactly the one video camera — while
`read_vicon` keeps every camera regardless of model. -/
theorem readers_video_model_filter :
    (∀ (b : ℚ) (cams : List QcaCam),
        (read_qca b cams).C.length
          = cams.countP (fun c => decide (c.model ∈ videoModels)))
    ∧ (read_qca 1
        [⟨1, "M1", "Miqus Video", 0, 1919, 0, 1079, 0, 0, 0, 0, 64, 64, 64, 64,
          0, 0, 0, 1, 0, 0, 0, 1, 0, 0, 0, 1⟩,
         ⟨2, "O1", "Oqus 300", 0, 1919, 0, 1079, 0, 0, 0, 0, 64, 64, 64, 64,
          0, 0, 0, 1, 0, 0, 0, 1, 0, 0, 0, 1⟩]).C = ["M1"]
    ∧ (∀ cams : List ViconCam, (read_vicon cams).C.length = cams.length) := by
  refine ⟨?_, by decide, ?_⟩
  · intro b cams
    simp [read_qca, List.length_map, reorderIds_length, vidIdsFrom_length]
  · intro cams
    simp [read_vicon, List.length_map, reorderIds_length, List.length_range]

/-- Helper: the intrinsics loop fails, naming the folder, at the first
camera whose image set is empty. -/
theorem intrinsicsLoop_error_of_first_empty (dir ext : String)
    (fit : List (List (ℚ × ℚ)) → IntrinsicsFit) :
    ∀ (pre : List CamDirI) (cam : CamDirI) (post : List CamDirI) (i : ℕ),
      cam.files = [] → (∀ c ∈ pre, c.files ≠ []) →
      intrinsicsLoop dir ext fit i (pre ++ cam :: post)
        = Except.error ("The folder " ++ joinPath (joinPath dir "intrinsics") cam.name
            ++ " does not exist or does not contain any files with extension ." ++ ext ++ ".") := by
  intro pre
  induction pre with
  | nil =>
    intro cam post i hcam _
    simp [intrinsicsLoop, hcam]
  | cons c cs ih =>
    intro cam post i hcam hpre
    have hc : c.files ≠ [] := hpre c (List.mem_cons_self c cs)
    have hrec := ih cam post (i + 1) hcam (fun d hd => hpre d (List.mem_cons_of_mem c hd))
    simp [intrinsicsLoop, hc, hrec]

/-- Helper: the extrinsics loop fails, naming the folder, at the first
camera whose image set is empty, provided the cameras before it carry
images and a successful detection. -/
theorem extrinsicsLoop_error_of_first_empty (dir ext : String) (btype : BoardType)
    (ca cb : ℕ) (sq : ℚ) (oc : List Vec3) (K : List Mat3) :
    ∀ (pre : List CamDirE) (cam : CamDirE) (post : List CamDirE) (i : ℕ),
      cam.files = [] → (∀ c ∈ pre, c.files ≠ [] ∧ c.found ≠ none) →
      extrinsicsLoop dir ext btype ca cb sq oc K i (pre ++ cam :: post)
        = Except.error ("The folder " ++ joinPath (joinPath dir "extrinsics") cam.name
            ++ " does not exist or does not contain any files with extension ." ++ ext ++ ".") := by
  intro pre
  induction pre with
  | nil =>
    intro cam post i hcam _
    simp [extrinsicsLoop, hcam]
  | cons c cs ih =>
    intro cam post i hcam hpre
    obtain ⟨hc1, hc2⟩ := hpre c (List.mem_cons_self c cs)
    have hrec := ih cam post (i + 1) hcam (fun d hd => hpre d (List.mem_cons_of_mem c hd))
    cases hf : c.found with
    | none => exact absurd hf hc2
    | some pts => simp [extrinsicsLoop, hc1, hf, hrec]

/-- Helper: with a non-empty image set for every camera, the intrinsics
loop succeeds with one result per camera, and every camera with fewer
than 10 accepted images contributes its low-count log line to the
warning list. -/
theorem intrinsicsLoop_ok_of_nonempty (dir ext : String)
    (fit : List (List (ℚ × ℚ)) → IntrinsicsFit) :
    ∀ (cams : List CamDirI) (i : ℕ), (∀ c ∈ cams, c.files ≠ []) →
      ∃ res ws, intrinsicsLoop dir ext fit i cams = Except.ok (res, ws)
        ∧ res.C.length = cams.length
        ∧ ∀ c ∈ cams, (c.files.filterMap (fun f => f.corners)).length < 10 →
            ("Corners were detected only on "
              ++ toString (c.files.filterMap (fun f => f.corners)).length
              ++ " images for camera " ++ c.name
              ++ ". Calibration of intrinsic parameters may not be accurate with fewer than 10 good images of the board.") ∈ ws := by
  intro cams
  induction cams with
  | nil =>
    intro i _
    exact ⟨⟨[], [], [], [], [], [], []⟩, [], rfl, rfl, by simp⟩
  | cons c cs ih =>
    intro i h
    have hc : c.files ≠ [] := h c (List.mem_cons_self c cs)
    obtain ⟨res, ws, hok, hlen, hws⟩ := ih (i + 1) (fun d hd => h d (List.mem_cons_of_mem c hd))
    refine ⟨⟨(fit (c.files.filterMap (fun f => f.corners))).ret :: res.ret,
      ("cam_" ++ zfill2 (i + 1)) :: res.C,
      ((fit (c.files.filterMap (fun f => f.corners))).w,
        (fit (c.files.filterMap (fun f => f.corners))).h) :: res.S,
      (fit (c.files.filterMap (fun f => f.corners))).dist :: res.D,
      (fit (c.files.filterMap (fun f => f.corners))).mtx :: res.K,
      (⟨0, 0, 0⟩ : Vec3) :: res.R, (⟨0, 0, 0⟩ : Vec3) :: res.T⟩,
      (if (c.files.filterMap (fun f => f.corners)).length < 10 then
        ["Corners were detected only on "
          ++ toString (c.files.filterMap (fun f => f.corners)).length
          ++ " images for camera " ++ c.name
          ++ ". Calibration of intrinsic parameters may not be accurate with fewer than 10 good images of the board."]
      else []) ++ ws, ?_, ?_, ?_⟩
    · simp [intrinsicsLoop, hc, hok]
    · simpa using hlen
    · intro d hd hlow
      rcases List.mem_cons.mp hd with rfl | hdm
      · simp [hlow]
      · exact List.mem_append_right _ (hws d hdm hlow)

/-- C9: in board calibration, an absent intrinsics or extrinsics root
raises a fatal error naming the missing path; an empty image set for a
camera raises a fatal error for that run naming the camera folder (at
both stages); whereas fewer than 10 accepted images at the intrinsics
stage only contributes a log warning and the run proceeds to a
successful result covering every camera. -/
theorem board_calibration_failure_semantics :
    (∀ (dir ext : String) (fit : List (List (ℚ × ℚ)) → IntrinsicsFit),
      calibrate_intrinsics dir ext fit none
        = Except.error ("Error: No " ++ joinPath dir "intrinsics" ++ " folder found."))
    ∧ (∀ (dir ext : String) (btype : BoardType) (ca cb : ℕ) (sq : ℚ)
        (oc : List Vec3) (K : List Mat3),
      calibrate_extrinsics dir ext btype ca cb sq oc K none
        = Except.error ("Error: No " ++ joinPath dir "extrinsics" ++ " folder found."))
    ∧ (∀ (dir ext : String) (fit : List (List (ℚ × ℚ)) → IntrinsicsFit)
        (pre : List CamDirI) (cam : CamDirI) (post : List CamDirI),
      cam.files = [] → (∀ c ∈ pre, c.files ≠ []) →
      calibrate_intrinsics dir ext fit (some (pre ++ cam :: post))
        = Except.error ("The folder " ++ joinPath (joinPath dir "intrinsics") cam.name
            ++ " does not exist or does not contain any files with extension ." ++ ext ++ "."))
    ∧ (∀ (dir ext : String) (btype : BoardType) (ca cb : ℕ) (sq : ℚ)
        (oc : List Vec3) (K : List Mat3)
        (pre : List CamDirE) (cam : CamDirE) (post : List CamDirE),
      cam.files = [] → (∀ c ∈ pre, c.files ≠ [] ∧ c.found ≠ none) →
      calibrate_extrinsics dir ext btype ca cb sq oc K (some (pre ++ cam :: post))
        = Except.error ("The folder " ++ joinPath (joinPath dir "extrinsics") cam.name
            ++ " does not exist or does not contain any files with extension ." ++ ext ++ "."))
    ∧ (∀ (dir ext : String) (fit : List (List (ℚ × ℚ)) → IntrinsicsFit)
        (cams : List CamDirI), (∀ c ∈ cams, c.files ≠ []) →
      ∃ res ws, calibrate_intrinsics dir ext fit (some cams) = Except.ok (res, ws)
        ∧ res.C.length = cams.length
        ∧ ∀ c ∈ cams, (c.files.filterMap (fun f => f.corners)).length < 10 →
            ("Corners were detected only on "
              ++ toString (c.files.filterMap (fun f => f.corners)).length
              ++ " images for camera " ++ c.name
              ++ ". Calibration of intrinsic parameters may not be accurate with fewer than 10 good images of the board.") ∈ ws) := by
  refine ⟨fun _ _ _ => rfl, fun _ _ _ _ _ _ _ _ => rfl, ?_, ?_, ?_⟩
  · intro dir ext fit pre cam post hcam hpre
    exact intrinsicsLoop_error_of_first_empty dir ext fit pre cam post 0 hcam hpre
  · intro dir ext btype ca cb sq oc K pre cam post hcam hpre
    exact extrinsicsLoop_error_of_first_empty dir ext btype ca cb sq oc K pre cam post 0 hcam hpre
  · intro dir ext fit cams h
    exact intrinsicsLoop_ok_of_nonempty dir ext fit cams 0 h

/-- Witness for C9: a missing-image-set failure at each stage and a
one-camera run that succeeds with only the low-count warning. -/
theorem board_calibration_failure_semantics_witness :
    ((⟨"cam_01", []⟩ : CamDirI).files = [] ∧
      calibrate_intrinsics "cal" "png" (fun _ => default)
          (some ([] ++ (⟨"cam_01", []⟩ : CamDirI) :: []))
        = Except.error ("The folder " ++ joinPath (joinPath "cal" "intrinsics")
            (⟨"cam_01", []⟩ : CamDirI).name
            ++ " does not exist or does not contain any files with extension ." ++ "png" ++ "."))
    ∧ ((⟨"cam_02", [], none, [], ⟨0, 0, 0⟩, ⟨0, 0, 0⟩, idMat3⟩ : CamDirE).files = [] ∧
      calibrate_extrinsics "cal" "png" BoardType.scene 4 7 1 [] []
          (some ([] ++ (⟨"cam_02", [], none, [], ⟨0, 0, 0⟩, ⟨0, 0, 0⟩, idMat3⟩ : CamDirE) :: []))
        = Except.error ("The folder " ++ joinPath (joinPath "cal" "extrinsics")
            (⟨"cam_02", [], none, [], ⟨0, 0, 0⟩, ⟨0, 0, 0⟩, idMat3⟩ : CamDirE).name
            ++ " does not exist or does not contain any files with extension ." ++ "png" ++ "."))
    ∧ (∃ res ws, calibrate_intrinsics "cal" "png" (fun _ => default)
          (some [⟨"cam_03", [⟨"f0.png", none⟩]⟩])
        = Except.ok (res, ws)
        ∧ res.C.length = [(⟨"cam_03", [⟨"f0.png", none⟩]⟩ : CamDirI)].length
        ∧ ∀ c ∈ [(⟨"cam_03", [⟨"f0.png", none⟩]⟩ : CamDirI)],
            (c.files.filterMap (fun f => f.corners)).length < 10 →
            ("Corners were detected only on "
              ++ toString (c.files.filterMap (fun f => f.corners)).length
              ++ " images for camera " ++ c.name
              ++ ". Calibration of intrinsic parameters may not be accurate with fewer than 10 good images of the board.") ∈ ws) :=
  ⟨⟨rfl, board_calibration_failure_semantics.2.2.1 "cal" "png" (fun _ => default)
      [] ⟨"cam_01", []⟩ [] rfl (by simp)⟩,
   ⟨rfl, board_calibration_failure_semantics.2.2.2.1 "cal" "png" BoardType.scene 4 7 1 [] []
      [] ⟨"cam_02", [], none, [], ⟨0, 0, 0⟩, ⟨0, 0, 0⟩, idMat3⟩ [] rfl (by simp)⟩,
   board_calibration_failure_semantics.2.2.2.2 "cal" "png" (fun _ => default)
      [⟨"cam_03", [⟨"f0.png", none⟩]⟩] (by simp)⟩
